import Mathlib

/-
Verification of the recipe controller of the Spicise generator backend
(`src/controllers/recipe.controller.js`).

The controller is a set of Express request handlers over a document store.
We embed the handlers as pure Lean functions: the document store becomes an
explicit association list passed in and returned, the untyped JavaScript
request payloads become the `Js` value type below, and the external
collaborators (the jsonrepair library and the AI generation client) become
explicit function/data parameters.  Numbers are modelled as rationals: the
controller only ever manipulates decimal literals, so IEEE-754 rounding
artifacts are idealized away.
-/

set_option autoImplicit false

namespace Spicise

/-- JavaScript runtime values as they appear in request payloads and in the
output of `JSON.parse`.  `undefined` stands for `undefined`, i.e. also for an
absent object property. -/
inductive Js where
  | undefined
  | null
  | bool (b : Bool)
  | num (q : ℚ)
  | str (s : String)
  | arr (elems : List Js)
  | obj (fields : List (String × Js))

/-- JavaScript truthiness: `undefined`, `null`, `false`, `0` and `""` are
falsy; every other value (including empty arrays and objects) is truthy. -/
def truthy : Js → Bool
  | .undefined => false
  | .null => false
  | .bool b => b
  | .num q => decide (q ≠ 0)
  | .str s => !s.isEmpty
  | .arr _ => true
  | .obj _ => true

/-- `Array.isArray`. -/
def isArray : Js → Bool
  | .arr _ => true
  | _ => false

/-! ## Category normalization (`normalizeCategory`, lines 137–148) -/

/-- The character class kept by `replace(/[^a-z]/g, "")`. -/
def isAsciiLower (c : Char) : Bool := 'a' ≤ c && c ≤ 'z'

/-- `cat.toLowerCase().replace(/[^a-z]/g, "")`. -/
def cleanCategory (cat : String) : String :=
  String.mk ((cat.toList.map Char.toLower).filter isAsciiLower)

/-- The fixed lookup table applied to the cleaned category string
(the chain of `includes` checks in `normalizeCategory`). -/
def categoryTable (cleaned : String) : String :=
  if cleaned ∈ (["veg", "vegetarian"] : List String) then "vegetarian"
  else if cleaned ∈ (["nonveg", "nonvegetarian"] : List String) then "non-vegetarian"
  else if cleaned = "vegan" then "vegan"
  else if cleaned = "spicy" then "spicy"
  else "other"

/-- `normalizeCategory` from the controller: empty (falsy) input short-circuits
to `"other"`; otherwise the cleaned string is mapped through the fixed table. -/
def normalizeCategory (cat : String) : String :=
  if cat.isEmpty then "other" else categoryTable (cleanCategory cat)

/-! ## Nutrition coercion (`parseNutrition`, lines 95–99) -/

/-- Fractional digits of `r / den` in decimal, emitted until the remainder
vanishes (bounded by the fuel; the controller only meets terminating
decimals). -/
def decimalFracDigits : Nat → Nat → Nat → List Char
  | 0, _, _ => []
  | _ + 1, 0, _ => []
  | fuel + 1, r, den => Char.ofNat (48 + r * 10 / den) :: decimalFracDigits fuel (r * 10 % den) den

/-- Decimal rendering of a rational, matching JavaScript `Number.toString`
on the terminating decimals the controller actually handles. -/
def qToStr (q : ℚ) : String :=
  let sign := if q < 0 then "-" else ""
  let n := q.num.natAbs
  let ip := n / q.den
  let r := n % q.den
  if r = 0 then sign ++ toString ip
  else sign ++ toString ip ++ "." ++ String.mk (decimalFracDigits 20 r q.den)

mutual

/-- JavaScript `.toString()` conversion for the values of `Js`. -/
def jsToStr : Js → String
  | .undefined => "undefined"
  | .null => "null"
  | .bool true => "true"
  | .bool false => "false"
  | .num q => qToStr q
  | .str s => s
  | .arr l => jsArrToStr l
  | .obj _ => "[object Object]"

/-- `Array.prototype.toString`: elements joined by commas, `null` and
`undefined` elements rendered as the empty string. -/
def jsArrToStr : List Js → String
  | [] => ""
  | [Js.undefined] => ""
  | [Js.null] => ""
  | [x] => jsToStr x
  | Js.undefined :: xs => "," ++ jsArrToStr xs
  | Js.null :: xs => "," ++ jsArrToStr xs
  | x :: xs => jsToStr x ++ "," ++ jsArrToStr xs

end

/-- The character class kept by `replace(/[^\d.]/g, "")`. -/
def keepDigitDot (c : Char) : Bool := c.isDigit || c = '.'

/-- Numeric value of a block of decimal digit characters. -/
def digitsToNat (ds : List Char) : Nat :=
  ds.foldl (fun acc c => acc * 10 + (c.toNat - 48)) 0

/-- Value of a fractional digit block. -/
def fracValue (ds : List Char) : ℚ :=
  (digitsToNat ds : ℚ) / (10 : ℚ) ^ ds.length

/-- `parseFloat` on a string whose characters are digits and dots (the shape
produced by the strip above): parse the longest valid decimal-literal prefix,
`none` standing for `NaN`.  Sign and exponent cannot occur: the strip removed
them. -/
def parseFloatQ (cs : List Char) : Option ℚ :=
  if (cs.takeWhile Char.isDigit).isEmpty then
    match cs.dropWhile Char.isDigit with
    | '.' :: rs =>
        if (rs.takeWhile Char.isDigit).isEmpty then none
        else some (fracValue (rs.takeWhile Char.isDigit))
    | _ => none
  else
    match cs.dropWhile Char.isDigit with
    | '.' :: rs =>
        some ((digitsToNat (cs.takeWhile Char.isDigit) : ℚ) + fracValue (rs.takeWhile Char.isDigit))
    | _ => some ((digitsToNat (cs.takeWhile Char.isDigit) : ℚ))

/-- `parseFloat(num.toFixed(2))`: rounding to 2 decimal places (half-up on
the idealized rational value; the argument is never negative here). -/
def roundTo2 (q : ℚ) : ℚ := (⌊q * 100 + 1 / 2⌋ : ℚ) / 100

/-- `parseNutrition` from `createRecipe`: falsy values coerce to 0; otherwise
the value is stringified, every character that is not a digit or a dot is
stripped, the remainder goes through `parseFloat` (0 for `NaN`) and the
result is rounded to 2 decimal places. -/
def parseNutrition (value : Js) : ℚ :=
  if truthy value = false then 0
  else
    match parseFloatQ ((jsToStr value).toList.filter keepDigitDot) with
    | none => 0
    | some q => roundTo2 q

theorem fracValue_nonneg (ds : List Char) : 0 ≤ fracValue ds := by
  unfold fracValue
  positivity

theorem parseFloatQ_nonneg {cs : List Char} {q : ℚ} (h : parseFloatQ cs = some q) :
    0 ≤ q := by
  unfold parseFloatQ at h
  split at h
  · split at h
    · split at h
      · exact absurd h (by simp)
      · simp only [Option.some.injEq] at h
        exact h ▸ fracValue_nonneg _
    · exact absurd h (by simp)
  · split at h
    · simp only [Option.some.injEq] at h
      exact h ▸ add_nonneg (Nat.cast_nonneg _) (fracValue_nonneg _)
    · simp only [Option.some.injEq] at h
      exact h ▸ Nat.cast_nonneg _

theorem roundTo2_nonneg {q : ℚ} (h : 0 ≤ q) : 0 ≤ roundTo2 q := by
  unfold roundTo2
  apply div_nonneg _ (by norm_num)
  have h2 : (0 : ℚ) ≤ q * 100 + 1 / 2 := by nlinarith
  exact_mod_cast Int.floor_nonneg.mpr h2

/-! ## Save / favorite bookkeeping (`saveRecipe`, lines 216–249) -/

/-- `if (!xs.includes(a)) xs.push(a)` — the guarded append used on both sides
of the save operation. -/
def guardedAppend (a : String) (l : List String) : List String :=
  if a ∈ l then l else l ++ [a]

/-- The two persisted sides touched by a save: the user's `savedRecipes`
array and the recipe's `savedBy` array. -/
structure SaveState where
  savedRecipes : List String
  savedBy : List String
  deriving DecidableEq

/-- `saveRecipe` (after the two existence checks succeed): the user's
`savedRecipes` field may be missing on old documents (`if (!user.savedRecipes)
user.savedRecipes = []`), hence the `Option`; then each side is appended
to only if membership fails. -/
def saveRecipe (recipeId userId : String) (savedRecipes : Option (List String))
    (savedBy : List String) : SaveState :=
  let sr := savedRecipes.getD []
  ⟨guardedAppend recipeId sr, guardedAppend userId savedBy⟩

theorem mem_guardedAppend (a : String) (l : List String) : a ∈ guardedAppend a l := by
  unfold guardedAppend
  by_cases h : a ∈ l <;> simp [h]

theorem guardedAppend_of_mem {a : String} {l : List String} (h : a ∈ l) :
    guardedAppend a l = l := by
  simp [guardedAppend, h]

theorem count_guardedAppend {a : String} {l : List String} (h : l.count a ≤ 1) :
    (guardedAppend a l).count a = 1 := by
  unfold guardedAppend
  by_cases hm : a ∈ l
  · have hpos : 0 < l.count a := List.count_pos_iff.mpr hm
    simp only [hm, if_true]
    omega
  · have hz : l.count a = 0 := List.count_eq_zero.mpr hm
    simp [hm, hz]

/-! ## Recipe update (`updateRecipe`, lines 150–195) -/

/-- The nine recipe fields touched by `updateRecipe`; also the shape of the
destructured request body, where an omitted property is `undefined`
(`Js.undefined`).  The remaining schema fields are never read or written by the
update handler. -/
structure RecipeFields where
  title : Js
  description : Js
  ingredients : Js
  instructions : Js
  portionSize : Js
  category : Js
  difficulty : Js
  nutritionalInfo : Js
  image : Js

/-- The body destructured from an empty `PUT` payload: every field
`undefined`. -/
def emptyPayload : RecipeFields :=
  ⟨.undefined, .undefined, .undefined, .undefined, .undefined, .undefined, .undefined, .undefined, .undefined⟩

/-- The field-update block of `updateRecipe` (lines 171–181): each field is
overwritten exactly when the payload value is truthy; a truthy non-array
category is wrapped into a one-element array. -/
def applyUpdate (recipe payload : RecipeFields) : RecipeFields where
  title := if truthy payload.title then payload.title else recipe.title
  description := if truthy payload.description then payload.description else recipe.description
  ingredients := if truthy payload.ingredients then payload.ingredients else recipe.ingredients
  instructions := if truthy payload.instructions then payload.instructions else recipe.instructions
  portionSize := if truthy payload.portionSize then payload.portionSize else recipe.portionSize
  category :=
    if truthy payload.category then
      (if isArray payload.category then payload.category else Js.arr [payload.category])
    else recipe.category
  difficulty := if truthy payload.difficulty then payload.difficulty else recipe.difficulty
  nutritionalInfo :=
    if truthy payload.nutritionalInfo then payload.nutritionalInfo else recipe.nutritionalInfo
  image := if truthy payload.image then payload.image else recipe.image

/-- `updateRecipe` at the store level: `findById`, the 404 answer when the id
is absent, otherwise the field updates followed by `recipe.save()`. -/
def updateRecipe (store : List (String × RecipeFields)) (id : String)
    (payload : RecipeFields) : Except String (List (String × RecipeFields)) :=
  match store.lookup id with
  | none => .error "Recipe not found"
  | some r => .ok (store.map (fun p => if p.1 = id then (id, applyUpdate r payload) else p))

/-- A concrete stored recipe used by witnesses. -/
def sampleRecipe : RecipeFields :=
  ⟨Js.str "Rice Bowl", Js.arr [Js.str "Simple"], Js.arr [Js.str "2 cups rice"],
   Js.arr [Js.str "Cook rice"], Js.str "4", Js.arr [Js.str "vegetarian"],
   Js.str "easy", Js.obj [("calories", Js.num 200)], Js.str "img"⟩

/-! ## AI image generation (`generateRecipeImage`, lines 269–325) -/

/-- One part of an AI response candidate: `part.inlineData`, when present,
carries the base64 payload `part.inlineData.data`. -/
structure ResponsePart where
  inlineData : Option String

/-- One candidate of the AI image response. -/
structure Candidate where
  parts : List ResponsePart

/-- The double `for` loop of `generateRecipeImage` (lines 295–302): every
`inlineData` payload encountered overwrites `imageBase64`, starting from
`null`. -/
def scanInlineImage (candidates : List Candidate) : Option String :=
  candidates.foldl
    (fun acc c =>
      c.parts.foldl (fun acc2 p => match p.inlineData with | some d => some d | none => acc2) acc)
    none

/-- All inline payloads of a response, in traversal order. -/
def inlinePayloads (candidates : List Candidate) : List String :=
  (candidates.map (fun c => c.parts.filterMap (fun p => p.inlineData))).flatten

/-- `process.env.GOOGLE_API_KEY` is falsy (`!apiKey`) when the variable is
unset or set to the empty string. -/
def missingKey (apiKey : Option String) : Bool :=
  match apiKey with
  | none => true
  | some s => s.isEmpty

/-- Outcome of a `generateRecipeImage` request. -/
structure ImageGenResult where
  status : Nat
  message : Option String
  aiCalls : Nat
  store : List (String × RecipeFields)

/-- `generateRecipeImage`: credential guard, recipe lookup (404 before any AI
call), one AI call, the scan loop, and either the no-image error or the
data-URI write-back persisted to the store. -/
def generateRecipeImage (apiKey : Option String) (store : List (String × RecipeFields))
    (id : String) (response : List Candidate) : ImageGenResult :=
  if missingKey apiKey then ⟨500, some "GOOGLE_API_KEY not found", 0, store⟩
  else
    match store.lookup id with
    | none => ⟨404, some "Recipe not found", 0, store⟩
    | some recipe =>
      match scanInlineImage response with
      | none => ⟨500, some "No image returned by AI", 1, store⟩
      | some b64 =>
          ⟨200, some "Image generated successfully", 1,
            store.map (fun p =>
              if p.1 = id then
                (id, { recipe with image := Js.str ("data:image/png;base64," ++ b64) })
              else p)⟩

theorem getLast?_cons_or (d : String) (l : List String) :
    (d :: l).getLast? = l.getLast?.or (some d) := by
  induction l generalizing d with
  | nil => rfl
  | cons b t ih =>
    rw [List.getLast?_cons_cons, ih b]
    rw [Option.or_assoc]
    rfl

theorem parts_foldl_lastSome (parts : List ResponsePart) (acc : Option String) :
    parts.foldl (fun a p => match p.inlineData with | some d => some d | none => a) acc
      = (parts.filterMap (fun p => p.inlineData)).getLast?.or acc := by
  induction parts generalizing acc with
  | nil => simp
  | cons p ps ih =>
    cases hp : p.inlineData with
    | none => simp [List.foldl_cons, hp, ih, List.filterMap_cons]
    | some d =>
      simp only [List.foldl_cons, hp, ih, List.filterMap_cons]
      rw [getLast?_cons_or, Option.or_assoc]
      rfl

/-- The scan loop returns the LAST inline payload of the response (not the
first). -/
theorem scanInlineImage_eq_getLast (candidates : List Candidate) :
    scanInlineImage candidates = (inlinePayloads candidates).getLast? := by
  suffices h : ∀ acc, candidates.foldl
      (fun a c =>
        c.parts.foldl (fun a2 p => match p.inlineData with | some d => some d | none => a2) a)
      acc = (inlinePayloads candidates).getLast?.or acc by
    have h0 := h none
    rw [Option.or_none] at h0
    exact h0
  induction candidates with
  | nil => intro acc; simp [inlinePayloads]
  | cons c cs ih =>
    intro acc
    have hcons : inlinePayloads (c :: cs)
        = c.parts.filterMap (fun p => p.inlineData) ++ inlinePayloads cs := by
      simp [inlinePayloads]
    rw [List.foldl_cons, parts_foldl_lastSome, ih, hcons]
    rcases hcs : (inlinePayloads cs).getLast? with _ | d
    · have hnil : inlinePayloads cs = [] := by
        cases h : inlinePayloads cs with
        | nil => rfl
        | cons x xs =>
            rw [h, getLast?_cons_or] at hcs
            cases h2 : xs.getLast? with
            | none => rw [h2] at hcs; exact absurd hcs (by simp)
            | some y => rw [h2] at hcs; exact absurd hcs (by simp)
      rw [hnil, List.append_nil]
      rfl
    · have hne : inlinePayloads cs ≠ [] := by
        intro h
        rw [h] at hcs
        exact absurd hcs (by simp)
      rw [List.getLast?_append_of_ne_nil _ hne, hcs]
      rfl

/-! ## Strict JSON parsing (`JSON.parse`)

`createRecipe` parses the repaired AI text with `JSON.parse` and the unused
helper `safeJsonParse` parses strictly before repairing.  We embed a strict
JSON parser: fuel-indexed recursive descent, where the fuel only ever needs
one unit per consumed character. -/

/-- The whitespace accepted between JSON tokens. -/
def isJsonWs (c : Char) : Bool := c = ' ' || c = '\t' || c = '\n' || c = '\r'

def skipWs (cs : List Char) : List Char := cs.dropWhile isJsonWs

/-- Hexadecimal digit value, for `\uXXXX` escapes. -/
def hexVal (c : Char) : Option Nat :=
  if '0' ≤ c ∧ c ≤ '9' then some (c.toNat - 48)
  else if 'a' ≤ c ∧ c ≤ 'f' then some (c.toNat - 87)
  else if 'A' ≤ c ∧ c ≤ 'F' then some (c.toNat - 55)
  else none

/-- JSON string body after the opening quote: returns the decoded content and
the input remaining after the closing quote.  Unescaped control characters
are rejected, as `JSON.parse` does.  (A `\uXXXX` escape denoting a surrogate
half decodes to the replacement behavior of `Char.ofNat`.) -/
def parseJsonString : Nat → List Char → Option (List Char × List Char)
  | 0, _ => none
  | _ + 1, [] => none
  | fuel + 1, c :: rest =>
    if c = '"' then some ([], rest)
    else if c = '\\' then
      match rest with
      | [] => none
      | e :: rest2 =>
        if e = '"' then (parseJsonString fuel rest2).map (fun p => ('"' :: p.1, p.2))
        else if e = '\\' then (parseJsonString fuel rest2).map (fun p => ('\\' :: p.1, p.2))
        else if e = '/' then (parseJsonString fuel rest2).map (fun p => ('/' :: p.1, p.2))
        else if e = 'b' then
          (parseJsonString fuel rest2).map (fun p => (Char.ofNat 8 :: p.1, p.2))
        else if e = 'f' then
          (parseJsonString fuel rest2).map (fun p => (Char.ofNat 12 :: p.1, p.2))
        else if e = 'n' then (parseJsonString fuel rest2).map (fun p => ('\n' :: p.1, p.2))
        else if e = 'r' then (parseJsonString fuel rest2).map (fun p => ('\r' :: p.1, p.2))
        else if e = 't' then (parseJsonString fuel rest2).map (fun p => ('\t' :: p.1, p.2))
        else if e = 'u' then
          match rest2 with
          | h1 :: h2 :: h3 :: h4 :: rest3 =>
            match hexVal h1, hexVal h2, hexVal h3, hexVal h4 with
            | some a, some b, some c2, some d =>
              (parseJsonString fuel rest3).map
                (fun p => (Char.ofNat (((a * 16 + b) * 16 + c2) * 16 + d) :: p.1, p.2))
            | _, _, _, _ => none
          | _ => none
        else none
    else if c.toNat < 32 then none
    else (parseJsonString fuel rest).map (fun p => (c :: p.1, p.2))

/-- A nonempty block of decimal digits and the rest. -/
def parseDigits (cs : List Char) : Option (List Char × List Char) :=
  if (cs.takeWhile Char.isDigit).isEmpty then none
  else some (cs.takeWhile Char.isDigit, cs.dropWhile Char.isDigit)

/-- Optional `[eE][+-]?digits` exponent applied to an already-parsed value. -/
def parseExponent (v : ℚ) (cs : List Char) : Option (ℚ × List Char) :=
  match cs with
  | 'e' :: rest | 'E' :: rest =>
    match (match rest with
           | '+' :: r => ((1 : ℤ), r)
           | '-' :: r => ((-1 : ℤ), r)
           | _ => ((1 : ℤ), rest)) with
    | (esign, cs1) =>
      match parseDigits cs1 with
      | none => none
      | some (eds, cs2) => some (v * (10 : ℚ) ^ (esign * (digitsToNat eds : ℤ)), cs2)
  | _ => some (v, cs)

/-- JSON number: `-? (0 | [1-9][0-9]*) (. [0-9]+)? ([eE][+-]?[0-9]+)?`,
longest match, rejecting leading zeros as `JSON.parse` does. -/
def parseJsonNumber (cs : List Char) : Option (ℚ × List Char) :=
  match (match cs with
         | '-' :: r => (true, r)
         | _ => (false, cs)) with
  | (neg, cs1) =>
    match parseDigits cs1 with
    | none => none
    | some (ids, cs2) =>
      if 1 < ids.length ∧ ids.headI = '0' then none
      else
        match (match cs2 with
               | '.' :: cs3 =>
                 match parseDigits cs3 with
                 | none => none
                 | some (fds, cs4) => some ((digitsToNat ids : ℚ) + fracValue fds, cs4)
               | _ => some ((digitsToNat ids : ℚ), cs2)) with
        | none => none
        | some (v, cs5) =>
          match parseExponent v cs5 with
          | none => none
          | some (v2, cs6) => some ((if neg then -v2 else v2), cs6)

mutual

/-- One JSON value, leading whitespace allowed. -/
def parseJsonValue : Nat → List Char → Option (Js × List Char)
  | 0, _ => none
  | fuel + 1, cs =>
    match skipWs cs with
    | [] => none
    | '{' :: rest => parseJsonObjectBody fuel rest
    | '[' :: rest => parseJsonArrayBody fuel rest
    | '"' :: rest =>
      match parseJsonString (rest.length + 1) rest with
      | some (body, rem) => some (.str (String.mk body), rem)
      | none => none
    | 't' :: rest =>
      if rest.take 3 = ['r', 'u', 'e'] then some (.bool true, rest.drop 3) else none
    | 'f' :: rest =>
      if rest.take 4 = ['a', 'l', 's', 'e'] then some (.bool false, rest.drop 4) else none
    | 'n' :: rest =>
      if rest.take 3 = ['u', 'l', 'l'] then some (.null, rest.drop 3) else none
    | cs2 =>
      match parseJsonNumber cs2 with
      | some (q, rem) => some (.num q, rem)
      | none => none
  termination_by structural fuel => fuel

/-- Array body after `[`. -/
def parseJsonArrayBody : Nat → List Char → Option (Js × List Char)
  | 0, _ => none
  | fuel + 1, cs =>
    match skipWs cs with
    | ']' :: rest => some (.arr [], rest)
    | cs2 =>
      match parseJsonValue fuel cs2 with
      | none => none
      | some (v, rem) => parseJsonArrayTail fuel rem [v]
  termination_by structural fuel => fuel

/-- Array tail: `, value`* then `]`, elements accumulated in reverse. -/
def parseJsonArrayTail : Nat → List Char → List Js → Option (Js × List Char)
  | 0, _, _ => none
  | fuel + 1, cs, accRev =>
    match skipWs cs with
    | ']' :: rest => some (.arr accRev.reverse, rest)
    | ',' :: rest =>
      match parseJsonValue fuel rest with
      | none => none
      | some (v, rem) => parseJsonArrayTail fuel rem (v :: accRev)
    | _ => none
  termination_by structural fuel => fuel

/-- Object body after `{`. -/
def parseJsonObjectBody : Nat → List Char → Option (Js × List Char)
  | 0, _ => none
  | fuel + 1, cs =>
    match skipWs cs with
    | '}' :: rest => some (.obj [], rest)
    | cs2 =>
      match parseJsonMember fuel cs2 with
      | none => none
      | some (kv, rem) => parseJsonObjectTail fuel rem [kv]
  termination_by structural fuel => fuel

/-- Object tail: `, member`* then `}`, members accumulated in reverse. -/
def parseJsonObjectTail : Nat → List Char → List (String × Js) → Option (Js × List Char)
  | 0, _, _ => none
  | fuel + 1, cs, accRev =>
    match skipWs cs with
    | '}' :: rest => some (.obj accRev.reverse, rest)
    | ',' :: rest =>
      match parseJsonMember fuel rest with
      | none => none
      | some (kv, rem) => parseJsonObjectTail fuel rem (kv :: accRev)
    | _ => none
  termination_by structural fuel => fuel

/-- One object member: `"key" : value`. -/
def parseJsonMember : Nat → List Char → Option ((String × Js) × List Char)
  | 0, _ => none
  | fuel + 1, cs =>
    match skipWs cs with
    | '"' :: rest =>
      match parseJsonString (rest.length + 1) rest with
      | none => none
      | some (key, rem) =>
        match skipWs rem with
        | ':' :: rem2 =>
          match parseJsonValue fuel rem2 with
          | none => none
          | some (v, rem3) => some ((String.mk key, v), rem3)
        | _ => none
    | _ => none
  termination_by structural fuel => fuel

end

/-- `JSON.parse`: one JSON value with surrounding whitespace, the whole input
consumed; `none` models the thrown `SyntaxError`. -/
def jsonParse (s : String) : Option Js :=
  match parseJsonValue (s.length + 1) s.toList with
  | none => none
  | some (v, rest) => if (skipWs rest).isEmpty then some v else none

/-! ## AI-backed creation (`createRecipe`, lines 46–126) -/

/-- `aiText.replace(/```json|```/g, "")`: at each position the regex removes
"```json" when it matches there, otherwise "```"; other characters are
kept. -/
def stripFencesAux : Nat → List Char → List Char
  | 0, cs => cs
  | _ + 1, [] => []
  | fuel + 1, c :: rest =>
    if (c :: rest).take 7 = "```json".toList then stripFencesAux fuel ((c :: rest).drop 7)
    else if (c :: rest).take 3 = "```".toList then stripFencesAux fuel ((c :: rest).drop 3)
    else c :: stripFencesAux fuel rest

/-- The fence-stripping step of `createRecipe` (line 78, without the final
`.trim()`). -/
def stripFences (s : String) : String :=
  String.mk (stripFencesAux s.length s.toList)

/-- Counters for the parse stage of `createRecipe`: how often the jsonrepair
library ran and how often `JSON.parse` ran, along with the outcome. -/
structure ParseTrace where
  repairCalls : Nat
  parseCalls : Nat
  result : Option Js

/-- The parse stage of `createRecipe` (lines 80–89): the cleaned text is
passed to the external `jsonrepair` library unconditionally (a throwing
repair is `none`), and the repaired text — when repair succeeded — is then
parsed strictly, exactly once.  `jsonrepair` is an external dependency, so it
enters as a function parameter. -/
def createParseStage (repair : String → Option String) (cleanText : String) : ParseTrace :=
  match repair cleanText with
  | none => ⟨1, 0, none⟩
  | some repaired => ⟨1, 1, jsonParse repaired⟩

/-- Modelled from the spec: the parse policy §4.2 step 4 describes — strict
parse first, repair and reparse once only on failure.  (It is also the policy
of the helper `safeJsonParse` below, which `createRecipe` never calls.) -/
def specParseStage (repair : String → Option String) (cleanText : String) : ParseTrace :=
  match jsonParse cleanText with
  | some v => ⟨0, 1, some v⟩
  | none =>
    match repair cleanText with
    | none => ⟨1, 1, none⟩
    | some repaired => ⟨1, 2, jsonParse repaired⟩

/-- The whitespace class `\s` of the JavaScript regexes in `safeJsonParse`
(ASCII part). -/
def jsRegexWs (c : Char) : Bool :=
  c = ' ' || c = '\t' || c = '\n' || c = '\r' || c = Char.ofNat 11 || c = Char.ofNat 12

/-- `str.replace(/,\s*X/g, "X")` for a closing bracket `X`: drops a comma
standing (up to whitespace) before `X`. -/
def replaceCommaBefore (close : Char) : Nat → List Char → List Char
  | 0, cs => cs
  | _ + 1, [] => []
  | fuel + 1, c :: rest =>
    if c = ',' then
      match rest.dropWhile jsRegexWs with
      | d :: rest2 =>
        if d = close then close :: replaceCommaBefore close fuel rest2
        else c :: replaceCommaBefore close fuel rest
      | [] => c :: replaceCommaBefore close fuel rest
    else c :: replaceCommaBefore close fuel rest

/-- `safeJsonParse` (lines 128–135): strict parse, then the two trailing-comma
replacements and a single retry.  Dead code: `createRecipe` never calls it. -/
def safeJsonParse (s : String) : Option Js :=
  match jsonParse s with
  | some v => some v
  | none =>
    jsonParse (String.mk
      (replaceCommaBefore ']'
        (replaceCommaBefore '}' s.length s.toList).length
        (replaceCommaBefore '}' s.length s.toList)))

/-- Property read `o.k` on a JavaScript value: `undefined` when the key is
absent or the receiver is a primitive; a thrown `TypeError` when the receiver
is `null` or `undefined`.  With duplicate keys the later one wins, as for
`JSON.parse` output. -/
def jsGetE (v : Js) (key : String) : Except String Js :=
  match v with
  | .undefined => .error "Cannot read properties of undefined"
  | .null => .error "Cannot read properties of null"
  | .obj fields => .ok (((fields.reverse.find? (fun kv => kv.1 = key)).map Prod.snd).getD .undefined)
  | _ => .ok .undefined

/-- Optional chaining `v?.k`: `undefined` instead of a throw when the
receiver is nullish. -/
def jsGetOpt (v : Js) (key : String) : Except String Js :=
  match v with
  | .undefined => .ok .undefined
  | .null => .ok .undefined
  | _ => jsGetE v key

/-- One entry of `formattedIngredients` (lines 91–93): strings pass through,
anything else is read as a record and printed as
`` `${i.amount || ""} ${i.unit || ""} ${i.item}` ``. -/
def formatIngredient (i : Js) : Except String String :=
  match i with
  | .str s => .ok s
  | _ => do
    let amount ← jsGetE i "amount"
    let unit ← jsGetE i "unit"
    let item ← jsGetE i "item"
    .ok (jsToStr (if truthy amount then amount else .str "") ++ " " ++
         jsToStr (if truthy unit then unit else .str "") ++ " " ++ jsToStr item)

/-- `parsedRecipe.ingredients.map(...)`: `.map` on a non-array throws into
the handler's catch. -/
def buildIngredients (parsed : Js) : Except String (List String) := do
  let ing ← jsGetE parsed "ingredients"
  match ing with
  | .arr elems => elems.mapM formatIngredient
  | _ => .error "parsedRecipe.ingredients.map is not a function"

/-- The four `parseNutrition(parsedRecipe.nutritionalInfo?.…)` reads
(lines 110–113). -/
def buildNutrition (parsed : Js) : Except String (ℚ × ℚ × ℚ × ℚ) := do
  let ni ← jsGetE parsed "nutritionalInfo"
  let cal ← jsGetOpt ni "calories"
  let pro ← jsGetOpt ni "protein"
  let fat ← jsGetOpt ni "fat"
  let carbs ← jsGetOpt ni "carbs"
  .ok (parseNutrition cal, parseNutrition pro, parseNutrition fat, parseNutrition carbs)

/-- The `new Recipe({...})` document assembled by `createRecipe`
(lines 101–115), recorded as a JSON-like object. -/
def buildRecipe (parsed : Js) (portionSize category difficulty : String) :
    Except String Js := do
  let ingredients ← buildIngredients parsed
  let title ← jsGetE parsed "title"
  let description ← jsGetE parsed "description"
  let instructions ← jsGetE parsed "instructions"
  let n ← buildNutrition parsed
  .ok (.obj [("title", title), ("description", description),
    ("ingredients", .arr (ingredients.map Js.str)),
    ("instructions", instructions),
    ("portionSize", .str portionSize),
    ("category", .str (normalizeCategory category)),
    ("difficulty", .str difficulty),
    ("nutritionalInfo", .obj [("calories", .num n.1), ("protein", .num n.2.1),
      ("fat", .num n.2.2.1), ("carbs", .num n.2.2.2)])])

/-- Outcome of a `createRecipe` request: HTTP status, error message, the raw
text attached to the parse-failure diagnostic, the number of AI calls made,
and the resulting store. -/
structure CreateResult where
  status : Nat
  error : Option String
  raw : Option String
  aiCalls : Nat
  store : List Js

/-- `createRecipe`: credential guard, one AI call producing `aiText`, fence
stripping and trim, the jsonrepair-then-parse stage, document assembly
(throws land in the catch), and the final store append (`recipe.save()`). -/
def createRecipe (apiKey : Option String) (aiText : String)
    (repair : String → Option String) (portionSize category difficulty : String)
    (store : List Js) : CreateResult :=
  if missingKey apiKey then ⟨500, some "GOOGLE_API_KEY not found", none, 0, store⟩
  else
    match (createParseStage repair ((stripFences aiText).trim)).result with
    | none => ⟨500, some "AI response JSON invalid", some aiText, 1, store⟩
    | some parsed =>
      match buildRecipe parsed portionSize category difficulty with
      | .error _ => ⟨500, some "Failed to generate recipe", none, 1, store⟩
      | .ok recipe => ⟨201, none, none, 1, store ++ [recipe]⟩

/-- C1: `normalizeCategory` is total with range exactly the five tags, and the
fixed table maps `"Non-Veg!"` to `"non-vegetarian"`, `"VEGAN"` to `"vegan"`
and `"keto"` to `"other"`. -/
theorem normalizeCategory_total_range (cat : String) :
    normalizeCategory cat ∈
      (["vegetarian", "non-vegetarian", "vegan", "spicy", "other"] : List String) ∧
    normalizeCategory "Non-Veg!" = "non-vegetarian" ∧
    normalizeCategory "VEGAN" = "vegan" ∧
    normalizeCategory "keto" = "other" := by
  refine ⟨?_, by decide, by decide, by decide⟩
  unfold normalizeCategory categoryTable
  split_ifs <;> simp

/-- C3: saving the same (user, recipe) pair twice leaves the recipe id with
exactly one occurrence in `savedRecipes` and the user id with exactly one
occurrence in `savedBy`, provided neither array held duplicates beforehand. -/
theorem saveRecipe_idempotent_count (recipeId userId : String)
    (sr0 sb0 : List String) (hsr : sr0.count recipeId ≤ 1) (hsb : sb0.count userId ≤ 1) :
    ((saveRecipe recipeId userId
        (some (saveRecipe recipeId userId (some sr0) sb0).savedRecipes)
        (saveRecipe recipeId userId (some sr0) sb0).savedBy).savedRecipes.count recipeId = 1) ∧
    ((saveRecipe recipeId userId
        (some (saveRecipe recipeId userId (some sr0) sb0).savedRecipes)
        (saveRecipe recipeId userId (some sr0) sb0).savedBy).savedBy.count userId = 1) := by
  have h1 := count_guardedAppend hsr
  have h2 := count_guardedAppend hsb
  have m1 := mem_guardedAppend recipeId sr0
  have m2 := mem_guardedAppend userId sb0
  simp only [saveRecipe, Option.getD]
  rw [guardedAppend_of_mem m1, guardedAppend_of_mem m2]
  exact ⟨h1, h2⟩

/-- C3 witness: the idempotence theorem applied at a concrete pair and empty
initial state. -/
theorem saveRecipe_idempotent_count_witness :
    ((saveRecipe "r1" "u1"
        (some (saveRecipe "r1" "u1" (some []) []).savedRecipes)
        (saveRecipe "r1" "u1" (some []) []).savedBy).savedRecipes.count "r1" = 1) ∧
    ((saveRecipe "r1" "u1"
        (some (saveRecipe "r1" "u1" (some []) []).savedRecipes)
        (saveRecipe "r1" "u1" (some []) []).savedBy).savedBy.count "u1" = 1) :=
  saveRecipe_idempotent_count "r1" "u1" [] [] (by decide) (by decide)

/-- C4: after a completed save, the recipe id is in the user's `savedRecipes`
and the user id is in the recipe's `savedBy`; in particular the bidirectional
membership invariant (one side iff the other) holds for the saved pair. -/
theorem saveRecipe_bidirectional (recipeId userId : String)
    (savedRecipes : Option (List String)) (savedBy : List String) :
    recipeId ∈ (saveRecipe recipeId userId savedRecipes savedBy).savedRecipes ∧
    userId ∈ (saveRecipe recipeId userId savedRecipes savedBy).savedBy ∧
    (recipeId ∈ (saveRecipe recipeId userId savedRecipes savedBy).savedRecipes ↔
      userId ∈ (saveRecipe recipeId userId savedRecipes savedBy).savedBy) := by
  refine ⟨mem_guardedAppend _ _, mem_guardedAppend _ _, ?_⟩
  simp only [saveRecipe]
  exact iff_of_true (mem_guardedAppend _ _) (mem_guardedAppend _ _)

/-- C2: every nutrition value coerces to a non-negative rational that is an
integer multiple of 1/100 (rounded to 2 decimals); absence coerces to 0 and
the string `"200kcal"` coerces to 200. -/
theorem parseNutrition_nonneg_two_decimals (value : Js) :
    0 ≤ parseNutrition value ∧
    (∃ n : ℤ, parseNutrition value = (n : ℚ) / 100) ∧
    parseNutrition (Js.str "200kcal") = 200 ∧
    parseNutrition Js.undefined = 0 := by
  have hstr : jsToStr (Js.str "200kcal") = "200kcal" := by simp [jsToStr]
  have hfilter : List.filter keepDigitDot "200kcal".toList = ['2', '0', '0'] := by decide
  have hparse : parseFloatQ ['2', '0', '0'] = some ((200 : ℕ) : ℚ) := by
    have htake : List.takeWhile Char.isDigit ['2', '0', '0'] = ['2', '0', '0'] := by decide
    have hdrop : List.dropWhile Char.isDigit ['2', '0', '0'] = ([] : List Char) := by decide
    have hd : digitsToNat ['2', '0', '0'] = 200 := by decide
    unfold parseFloatQ
    rw [htake, hdrop, hd]
    norm_num
  have hfloor : (⌊(((200 : ℕ) : ℚ)) * 100 + 1 / 2⌋ : ℤ) = 20000 := by
    rw [Int.floor_eq_iff]
    norm_num
  have h200 : parseNutrition (Js.str "200kcal") = 200 := by
    simp only [parseNutrition, hstr, hfilter, hparse, truthy, roundTo2, hfloor]
    norm_num
    decide
  refine ⟨?_, ?_, h200, by decide⟩ <;> unfold parseNutrition
  · split
    · exact le_refl 0
    · rcases hq : parseFloatQ ((jsToStr value).toList.filter keepDigitDot) with _ | q
      · simp [hq]
      · simp only [hq]
        exact roundTo2_nonneg (parseFloatQ_nonneg hq)
  · split
    · exact ⟨0, by norm_num⟩
    · rcases hq : parseFloatQ ((jsToStr value).toList.filter keepDigitDot) with _ | q
      · exact ⟨0, by simp [hq]⟩
      · exact ⟨⌊q * 100 + 1 / 2⌋, by simp [hq, roundTo2]⟩

/-- A payload whose only provided field is a scalar (non-array) category. -/
def scalarCategoryPayload : RecipeFields :=
  { emptyPayload with category := Js.str "veg" }

/-- A payload providing only falsy values: `title: ""`, `portionSize: 0`,
`difficulty: false`, `image: null`. -/
def falsyPayload : RecipeFields :=
  { emptyPayload with
      title := Js.str "", portionSize := Js.num 0,
      difficulty := Js.bool false, image := Js.null }

/-- A payload providing `ingredients: []` (an empty array — truthy in
JavaScript). -/
def emptyArrayPayload : RecipeFields :=
  { emptyPayload with ingredients := Js.arr [] }

/-- C5: the update has PATCH semantics — an empty payload changes nothing,
every omitted (`undefined`) field keeps its stored value, a truthy scalar
category is stored as a one-element array, and an absent id yields the
NotFound error. -/
theorem updateRecipe_patch_semantics :
    (∀ r : RecipeFields, applyUpdate r emptyPayload = r) ∧
    (∀ r p : RecipeFields,
      (p.title = Js.undefined → (applyUpdate r p).title = r.title) ∧
      (p.description = Js.undefined → (applyUpdate r p).description = r.description) ∧
      (p.ingredients = Js.undefined → (applyUpdate r p).ingredients = r.ingredients) ∧
      (p.instructions = Js.undefined → (applyUpdate r p).instructions = r.instructions) ∧
      (p.portionSize = Js.undefined → (applyUpdate r p).portionSize = r.portionSize) ∧
      (p.category = Js.undefined → (applyUpdate r p).category = r.category) ∧
      (p.difficulty = Js.undefined → (applyUpdate r p).difficulty = r.difficulty) ∧
      (p.nutritionalInfo = Js.undefined → (applyUpdate r p).nutritionalInfo = r.nutritionalInfo) ∧
      (p.image = Js.undefined → (applyUpdate r p).image = r.image)) ∧
    (∀ r p : RecipeFields, truthy p.category = true → isArray p.category = false →
      (applyUpdate r p).category = Js.arr [p.category]) ∧
    (∀ (store : List (String × RecipeFields)) (id : String) (p : RecipeFields),
      store.lookup id = none → updateRecipe store id p = Except.error "Recipe not found") := by
  refine ⟨?_, ?_, ?_, ?_⟩
  · intro r
    cases r
    simp [applyUpdate, emptyPayload, truthy]
  · intro r p
    refine ⟨?_, ?_, ?_, ?_, ?_, ?_, ?_, ?_, ?_⟩ <;>
      (intro h; simp [applyUpdate, h, truthy])
  · intro r p ht ha
    simp [applyUpdate, ht, ha]
  · intro store id p h
    simp [updateRecipe, h]

/-- C5 witness: the PATCH-semantics theorem applied at a concrete recipe,
concrete payloads and a concrete missing id. -/
theorem updateRecipe_patch_semantics_witness :
    applyUpdate sampleRecipe emptyPayload = sampleRecipe ∧
    (applyUpdate sampleRecipe scalarCategoryPayload).title = sampleRecipe.title ∧
    (applyUpdate sampleRecipe scalarCategoryPayload).category = Js.arr [Js.str "veg"] ∧
    updateRecipe [] "r1" emptyPayload = Except.error "Recipe not found" :=
  ⟨updateRecipe_patch_semantics.1 sampleRecipe,
   (updateRecipe_patch_semantics.2.1 sampleRecipe scalarCategoryPayload).1 rfl,
   updateRecipe_patch_semantics.2.2.1 sampleRecipe scalarCategoryPayload (by decide) rfl,
   updateRecipe_patch_semantics.2.2.2 [] "r1" emptyPayload rfl⟩

theorem ite_keep_or_truthy (v old : Js) :
    (if truthy v then v else old) = old ∨ truthy (if truthy v then v else old) = true := by
  by_cases h : truthy v <;> simp [h]

theorem cat_keep_or_truthy (v old : Js) :
    (if truthy v then (if isArray v then v else Js.arr [v]) else old) = old ∨
    truthy (if truthy v then (if isArray v then v else Js.arr [v]) else old) = true := by
  by_cases h : truthy v
  · right
    rw [if_pos h]
    by_cases ha : isArray v
    · rw [if_pos ha]; exact h
    · rw [if_neg ha]; rfl
  · left
    rw [if_neg h]

/-- C10 counterexample: updating with `ingredients: []` — an empty array,
which is truthy in JavaScript — replaces a non-empty stored `ingredients`
with the empty array, so the update CAN clear a field to an empty value. -/
theorem updateRecipe_clears_ingredients_with_empty_array :
    (applyUpdate sampleRecipe emptyArrayPayload).ingredients = Js.arr [] ∧
    sampleRecipe.ingredients ≠ Js.arr [] := by
  refine ⟨rfl, ?_⟩
  intro h
  simp only [sampleRecipe, Js.arr.injEq] at h
  exact absurd h (by simp)

/-- C10 (amended): a field provided with a falsy value (`""`, `0`, `null`,
`false`, or `undefined`) is treated exactly like an omitted field — the
stored value is kept — and every overwritten field receives a truthy value,
so the update can never store a falsy value into any of the nine fields
(a truthy empty array can still replace an array field, per the
counterexample). -/
theorem updateRecipe_never_stores_falsy (r p : RecipeFields) :
    (truthy p.title = false → (applyUpdate r p).title = r.title) ∧
    (truthy p.description = false → (applyUpdate r p).description = r.description) ∧
    (truthy p.ingredients = false → (applyUpdate r p).ingredients = r.ingredients) ∧
    (truthy p.instructions = false → (applyUpdate r p).instructions = r.instructions) ∧
    (truthy p.portionSize = false → (applyUpdate r p).portionSize = r.portionSize) ∧
    (truthy p.category = false → (applyUpdate r p).category = r.category) ∧
    (truthy p.difficulty = false → (applyUpdate r p).difficulty = r.difficulty) ∧
    (truthy p.nutritionalInfo = false → (applyUpdate r p).nutritionalInfo = r.nutritionalInfo) ∧
    (truthy p.image = false → (applyUpdate r p).image = r.image) ∧
    ((applyUpdate r p).title = r.title ∨ truthy (applyUpdate r p).title = true) ∧
    ((applyUpdate r p).description = r.description ∨
      truthy (applyUpdate r p).description = true) ∧
    ((applyUpdate r p).ingredients = r.ingredients ∨
      truthy (applyUpdate r p).ingredients = true) ∧
    ((applyUpdate r p).instructions = r.instructions ∨
      truthy (applyUpdate r p).instructions = true) ∧
    ((applyUpdate r p).portionSize = r.portionSize ∨
      truthy (applyUpdate r p).portionSize = true) ∧
    ((applyUpdate r p).category = r.category ∨ truthy (applyUpdate r p).category = true) ∧
    ((applyUpdate r p).difficulty = r.difficulty ∨
      truthy (applyUpdate r p).difficulty = true) ∧
    ((applyUpdate r p).nutritionalInfo = r.nutritionalInfo ∨
      truthy (applyUpdate r p).nutritionalInfo = true) ∧
    ((applyUpdate r p).image = r.image ∨ truthy (applyUpdate r p).image = true) := by
  refine ⟨?_, ?_, ?_, ?_, ?_, ?_, ?_, ?_, ?_,
    ite_keep_or_truthy p.title r.title,
    ite_keep_or_truthy p.description r.description,
    ite_keep_or_truthy p.ingredients r.ingredients,
    ite_keep_or_truthy p.instructions r.instructions,
    ite_keep_or_truthy p.portionSize r.portionSize,
    cat_keep_or_truthy p.category r.category,
    ite_keep_or_truthy p.difficulty r.difficulty,
    ite_keep_or_truthy p.nutritionalInfo r.nutritionalInfo,
    ite_keep_or_truthy p.image r.image⟩ <;>
  (intro h; simp [applyUpdate, h])

/-- C10 witness: the amended theorem applied at a concrete recipe and a
payload carrying only falsy values. -/
theorem updateRecipe_never_stores_falsy_witness :
    (applyUpdate sampleRecipe falsyPayload).title = sampleRecipe.title ∧
    (applyUpdate sampleRecipe falsyPayload).portionSize = sampleRecipe.portionSize ∧
    (applyUpdate sampleRecipe falsyPayload).image = sampleRecipe.image ∧
    ((applyUpdate sampleRecipe falsyPayload).ingredients = sampleRecipe.ingredients ∨
      truthy (applyUpdate sampleRecipe falsyPayload).ingredients = true) := by
  have H := updateRecipe_never_stores_falsy sampleRecipe falsyPayload
  exact ⟨H.1 (by decide), H.2.2.2.2.1 (by decide), H.2.2.2.2.2.2.2.2.1 (by decide),
    H.2.2.2.2.2.2.2.2.2.2.2.1⟩

/-- A response carrying a single inline payload. -/
def oneImageResponse : List Candidate := [⟨[⟨some "IMGDATA"⟩]⟩]

/-- A response carrying two inline payloads in order. -/
def twoImageResponse : List Candidate := [⟨[⟨some "FIRSTIMG"⟩, ⟨some "SECONDIMG"⟩]⟩]

/-- C7 (amended): image generation answers NotFound when the recipe id is
absent (before any AI call); when no inline payload exists it answers the
"No image returned by AI" error without touching the store; otherwise it
overwrites the recipe's image with a data URI wrapping the LAST inline
payload of the response and persists it. -/
theorem generateRecipeImage_behavior (apiKey : Option String)
    (store : List (String × RecipeFields)) (id : String) (response : List Candidate)
    (hkey : missingKey apiKey = false) :
    (store.lookup id = none → generateRecipeImage apiKey store id response
        = ⟨404, some "Recipe not found", 0, store⟩) ∧
    (∀ r, store.lookup id = some r → inlinePayloads response = [] →
      generateRecipeImage apiKey store id response
        = ⟨500, some "No image returned by AI", 1, store⟩) ∧
    (∀ r b64, store.lookup id = some r → (inlinePayloads response).getLast? = some b64 →
      generateRecipeImage apiKey store id response
        = ⟨200, some "Image generated successfully", 1,
            store.map (fun p => if p.1 = id then
              (id, { r with image := Js.str ("data:image/png;base64," ++ b64) }) else p)⟩) := by
  refine ⟨?_, ?_, ?_⟩
  · intro h
    simp [generateRecipeImage, hkey, h]
  · intro r hr hnone
    simp [generateRecipeImage, hkey, hr, scanInlineImage_eq_getLast, hnone]
  · intro r b64 hr hlast
    simp [generateRecipeImage, hkey, hr, scanInlineImage_eq_getLast, hlast]

/-- C7 witness: the behavior theorem applied at a concrete store, id and
responses for all three branches. -/
theorem generateRecipeImage_behavior_witness :
    generateRecipeImage (some "key") [] "r1" oneImageResponse
      = ⟨404, some "Recipe not found", 0, []⟩ ∧
    generateRecipeImage (some "key") [("r1", sampleRecipe)] "r1" []
      = ⟨500, some "No image returned by AI", 1, [("r1", sampleRecipe)]⟩ ∧
    generateRecipeImage (some "key") [("r1", sampleRecipe)] "r1" oneImageResponse
      = ⟨200, some "Image generated successfully", 1,
          [("r1", sampleRecipe)].map (fun p => if p.1 = "r1" then
            ("r1", { sampleRecipe with image := Js.str ("data:image/png;base64," ++ "IMGDATA") })
          else p)⟩ :=
  ⟨(generateRecipeImage_behavior (some "key") [] "r1" oneImageResponse (by decide)).1 rfl,
   (generateRecipeImage_behavior (some "key") [("r1", sampleRecipe)] "r1" []
      (by decide)).2.1 sampleRecipe rfl rfl,
   (generateRecipeImage_behavior (some "key") [("r1", sampleRecipe)] "r1" oneImageResponse
      (by decide)).2.2 sampleRecipe "IMGDATA" rfl rfl⟩

/-- C7 counterexample: with two inline payloads `FIRSTIMG` then `SECONDIMG`
the persisted data URI wraps `SECONDIMG` — the loop keeps the last payload,
not the first one the claim names. -/
theorem generateRecipeImage_takes_last_not_first :
    (generateRecipeImage (some "key") [("r1", sampleRecipe)] "r1" twoImageResponse).store
      = [("r1", { sampleRecipe with image := Js.str "data:image/png;base64,SECONDIMG" })] ∧
    Js.str "data:image/png;base64,SECONDIMG" ≠ Js.str "data:image/png;base64,FIRSTIMG" := by
  refine ⟨rfl, ?_⟩
  intro h
  simp only [Js.str.injEq] at h
  exact absurd h (by decide)

/-- C6: with the AI credential absent from the environment, both AI-backed
operations answer 500 with the "GOOGLE_API_KEY not found" error, make zero AI
calls, and leave the store untouched. -/
theorem missing_credential_short_circuits (aiText : String)
    (repair : String → Option String) (portionSize category difficulty id : String)
    (store : List Js) (imgStore : List (String × RecipeFields)) (response : List Candidate) :
    createRecipe none aiText repair portionSize category difficulty store
      = ⟨500, some "GOOGLE_API_KEY not found", none, 0, store⟩ ∧
    generateRecipeImage none imgStore id response
      = ⟨500, some "GOOGLE_API_KEY not found", 0, imgStore⟩ :=
  ⟨rfl, rfl⟩

/-- C8 (amended): the parse stage of `createRecipe` invokes the repair pass
unconditionally — exactly once on every input, before any parse attempt — and
then parses strictly exactly once (zero times when repair throws); under the
claimed strict-parse-first policy the repair pass would run only when the
strict parse fails. -/
theorem createParseStage_repair_always (repair : String → Option String) (s : String) :
    (createParseStage repair s).repairCalls = 1 ∧
    (createParseStage repair s).parseCalls = (if (repair s).isSome then 1 else 0) ∧
    (specParseStage repair s).repairCalls = (if (jsonParse s).isSome then 0 else 1) := by
  refine ⟨?_, ?_, ?_⟩
  · unfold createParseStage
    cases h : repair s <;> simp [h]
  · unfold createParseStage
    cases h : repair s <;> simp [h]
  · unfold specParseStage
    cases h : jsonParse s <;> cases h2 : repair s <;> simp [h, h2]

/-- C8 counterexample: on the already-valid JSON text `[1]` — with the repair
pass behaving as the identity, as jsonrepair does on valid JSON — the parse
stage of `createRecipe` still invokes repair once, while the claimed
strict-parse-first policy (the one implemented by the unused helper
`safeJsonParse`) invokes it zero times. -/
theorem createParseStage_not_strict_first :
    (createParseStage some "[1]").repairCalls = 1 ∧
    (specParseStage some "[1]").repairCalls = 0 ∧
    jsonParse "[1]" = some (Js.arr [Js.num 1]) ∧
    safeJsonParse "[1]" = some (Js.arr [Js.num 1]) :=
  ⟨rfl, rfl, rfl, rfl⟩

/-- C9: when the repair-then-parse stage fails, creation answers 500 with the
"AI response JSON invalid" error and the ORIGINAL raw AI text attached, the
single AI call already made is not retried, and the store is unchanged — no
recipe document is persisted. -/
theorem createRecipe_parse_failure_atomic (apiKey : Option String) (aiText : String)
    (repair : String → Option String) (portionSize category difficulty : String)
    (store : List Js) (hkey : missingKey apiKey = false)
    (hfail : (createParseStage repair ((stripFences aiText).trim)).result = none) :
    createRecipe apiKey aiText repair portionSize category difficulty store
      = ⟨500, some "AI response JSON invalid", some aiText, 1, store⟩ := by
  unfold createRecipe
  rw [if_neg (by simp [hkey]), hfail]

/-- C9 witness: a repair pass that throws on the concrete unparsable text
"garbage" — creation reports the raw text and the store stays empty. -/
theorem createRecipe_parse_failure_atomic_witness :
    createRecipe (some "k") "garbage" (fun _ => none) "4" "veg" "easy" []
      = ⟨500, some "AI response JSON invalid", some "garbage", 1, []⟩ :=
  createRecipe_parse_failure_atomic (some "k") "garbage" (fun _ => none) "4" "veg" "easy" []
    (by decide) rfl

end Spicise
